import Mathlib

/-!
Verification of `crates/egui/src/widgets/plot/axis.rs` (plot axis widget).

Shallow embedding conventions:
* Rust `f64`/`f32` values are modelled as `ℚ` (the concrete values in all
  claims are exactly representable; `10.0_f64.powf(d)` is modelled as the
  exact power `10 ^ d`).
* `WidgetText` is modelled by its text, a `String` (`is_empty` becomes `= ""`).
* `RangeInclusive<f64>` is modelled as `ℚ × ℚ`.
* Text layout (galley sizes) is an oracle supplied by the render environment.
* Rust panics (`unreachable!()`, slice index out of bounds) are modelled by
  `Option`: `none` means the code panicked.
* Helpers that live in this repository but outside the provided source file
  (`epaint::emath::{remap_clamp, round_to_decimals}`, `PlotTransform`,
  `GridMark`) are modelled from the spec, as marked on their doc comments.
-/

/-! ## Decimal string rendering (Rust `format!` semantics) -/

/-- Base-ten digits, least significant first, by structural recursion on a
fuel bound (kernel-reducible; `digitsFuel n n` computes the digits of `n`). -/
def digitsFuel : ℕ → ℕ → List ℕ
  | 0, _ => []
  | fuel + 1, n => if n = 0 then [] else n % 10 :: digitsFuel fuel (n / 10)

/-- Base-ten digits of `n`, least significant first (`[]` for `0`). -/
def decDigits (n : ℕ) : List ℕ := digitsFuel n n

/-- Rust `{:e}` / `{:+e}` rendering of the magnitude of `m / 10 ^ d`
(`LowerExp`): significant digits of `m` (trailing zeros stripped), a single
leading digit then `.` and the rest, and exponent
`(number of digits of m - 1) - d`. `fmt_e_dec_mag 0 _ = "0e0"`. -/
def fmt_e_dec_mag (m : ℕ) (d : ℕ) : String :=
  let ds := decDigits m
  match (ds.dropWhile (· = 0)).reverse with
  | [] => "0e0"
  | [k] => String.mk [Nat.digitChar k] ++ "e" ++ toString ((ds.length - 1 : ℤ) - d)
  | k :: rest =>
      String.mk [Nat.digitChar k] ++ "." ++ String.mk (rest.map Nat.digitChar)
        ++ "e" ++ toString ((ds.length - 1 : ℤ) - d)

/-- Rust `format!("{n:+e}")` for `n : isize`: sign (`+` for nonnegative)
followed by the `LowerExp` rendering of the magnitude. -/
def fmt_plus_e_int (n : ℤ) : String :=
  (if n < 0 then "-" else "+") ++ fmt_e_dec_mag n.natAbs 0

/-- Rust `format!("{v:+e}")` for the `f64` value `v = z / 10 ^ d`
(a finite-decimal rational, which is the form of every float argument the
formatter passes to `{:+e}`). -/
def fmt_plus_e_dec (z : ℤ) (d : ℕ) : String :=
  (if z < 0 then "-" else "+") ++ fmt_e_dec_mag z.natAbs d

/-- Strip factors of ten shared between `z` and the scale `10 ^ d`:
`stripDec z d = (z', d')` with `z / 10 ^ d = z' / 10 ^ d'` and either
`d' = 0` or `z'` not divisible by ten. -/
def stripDec : ℤ → ℕ → ℤ × ℕ
  | z, 0 => (z, 0)
  | z, d + 1 => if z % 10 = 0 then stripDec (z / 10) d else (z, d + 1)

/-- Left-pad a digit-character list with `'0'` up to length `d`. -/
def padZeros (s : List Char) (d : ℕ) : List Char :=
  List.replicate (d - s.length) '0' ++ s

/-- Rust `f64::to_string` (the `Display` impl) for the finite-decimal value
`z / 10 ^ d`: plain decimal, minimal digits, no exponent. -/
def ratDecToString (z : ℤ) (d : ℕ) : String :=
  let zd := stripDec z d
  if zd.2 = 0 then toString zd.1
  else
    let m := zd.1.natAbs
    let ip := m / 10 ^ zd.2
    let fp := m % 10 ^ zd.2
    (if zd.1 < 0 then "-" else "") ++ toString ip ++ "." ++
      String.mk (padZeros ((decDigits fp).reverse.map Nat.digitChar) zd.2)

/-! ## Numeric helpers -/

/-- Truncation toward zero of a rational. -/
def ratTrunc (q : ℚ) : ℤ :=
  if 0 ≤ q then ⌊q⌋ else ⌈q⌉

/-- Rust `tick as isize` on an `f64`: truncate toward zero, saturating at the
`isize` (64-bit) bounds. -/
def as_isize (q : ℚ) : ℤ :=
  max (-(2 ^ 63)) (min (2 ^ 63 - 1) (ratTrunc q))

/-- Modelled from the spec: `epaint::emath::round_to_decimals` (this
repository, but not among the provided sources) — "round `tick` to
`max_digits` decimal places". Kept as the scaled integer numerator so the
string renderers can consume it exactly: the value is
`round (x * 10^d) / 10^d`. -/
def round_to_decimals_num (x : ℚ) (d : ℕ) : ℤ :=
  round (x * 10 ^ d)

/-- The rounded rational value produced by `round_to_decimals`. -/
def round_to_decimals (x : ℚ) (d : ℕ) : ℚ :=
  (round_to_decimals_num x d : ℚ) / 10 ^ d

/-! ## The default tick formatter (`AxisHints::default_formatter`) -/

/-- `AxisHints::default_formatter` from the source:
1. if `|tick| > 10^max_digits`: return `format!("{:+e}", tick as isize)`;
2. otherwise let `tick_rounded = round_to_decimals(tick, max_digits)`;
3. if `|tick| < 10^(-max_digits)` and `tick ≠ 0`: return
   `format!("{tick_rounded:+e}")` (note: the source formats the ROUNDED value);
4. otherwise return `tick_rounded.to_string()`. -/
def default_formatter (tick : ℚ) (max_digits : ℕ) (_range : ℚ × ℚ) : String :=
  if |tick| > 10 ^ max_digits then
    fmt_plus_e_int (as_isize tick)
  else if |tick| < ((10 : ℚ) ^ max_digits)⁻¹ ∧ tick ≠ 0 then
    fmt_plus_e_dec (round_to_decimals_num tick max_digits) max_digits
  else
    ratDecToString (round_to_decimals_num tick max_digits) max_digits

/-! ## Data model (`axis.rs`) -/

/-- Generic constant for x-Axis. -/
def X_AXIS : ℕ := 0

/-- Generic constant for y-Axis. -/
def Y_AXIS : ℕ := 1

/-- Placement of an axis: bottom/left (`LeftBottom`) or top/right
(`RightTop`). -/
inductive Placement where
  | LeftBottom
  | RightTop
deriving DecidableEq

/-- Axis configuration (`AxisHints`): label text, tick formatter, maximum
digit count, placement. The const-generic `AXIS` parameter of the Rust type
is passed separately to the operations that branch on it. -/
structure AxisHints where
  label : String
  formatter : ℚ → ℕ → ℚ × ℚ → String
  digits : ℕ
  placement : Placement

/-- The fixed line-height constant (source: `const LINE_HEIGHT: f32 = 12.0`). -/
def LINE_HEIGHT : ℚ := 12

/-- `AxisHints::default`: empty label, the default formatter, 5 digits,
`LeftBottom` placement. -/
def AxisHints.default : AxisHints where
  label := ""
  formatter := default_formatter
  digits := 5
  placement := Placement.LeftBottom

/-- `AxisHints::thickness`: reserved space per axis orientation; `none`
models the `unreachable!()` arm for an unrecognized axis index. -/
def AxisHints.thickness (self : AxisHints) (AXIS : ℕ) : Option ℚ :=
  if AXIS = X_AXIS then
    some (if self.label = "" then 1 * LINE_HEIGHT else 3 * LINE_HEIGHT)
  else if AXIS = Y_AXIS then
    some (if self.label = "" then (self.digits : ℚ) * LINE_HEIGHT
          else ((self.digits : ℚ) + 1) * LINE_HEIGHT)
  else none

/-! ## Geometry -/

/-- A screen position (`epaint::Pos2`), coordinates as exact rationals. -/
structure Pos2 where
  x : ℚ
  y : ℚ
deriving DecidableEq

/-- A 2D size (`galley.size()`): width `x`, height `y`. -/
structure Vec2 where
  x : ℚ
  y : ℚ
deriving DecidableEq

/-- A screen rectangle (`epaint::Rect`), `min` top-left, `max` bottom-right
(y grows downward). -/
structure Rect where
  min : Pos2
  max : Pos2
deriving DecidableEq

def Rect.center_bottom (r : Rect) : Pos2 :=
  ⟨(r.min.x + r.max.x) / 2, r.max.y⟩

def Rect.center_top (r : Rect) : Pos2 :=
  ⟨(r.min.x + r.max.x) / 2, r.min.y⟩

def Rect.left_center (r : Rect) : Pos2 :=
  ⟨r.min.x, (r.min.y + r.max.y) / 2⟩

def Rect.right_center (r : Rect) : Pos2 :=
  ⟨r.max.x, (r.min.y + r.max.y) / 2⟩

/-- Modelled from the spec: `PlotTransform` (this repository's
`plot/transform.rs`, not among the provided sources) — "a value↔screen
transform exposing: point-to-screen projection, and per-axis
screen-units-per-value-unit derivative". `dpos_dvalue` is the `[f64; 2]`
derivative array (x component, y component); `position_from_point` projects a
plot point `(x, y)` to screen coordinates. -/
structure PlotTransform where
  dpos_dvalue : ℚ × ℚ
  position_from_point : ℚ × ℚ → ℚ × ℚ

/-- Indexing `transform.dpos_dvalue()[AXIS]`; `none` models the slice
index-out-of-bounds panic for `AXIS ≥ 2`. -/
def PlotTransform.dposAt (t : PlotTransform) (AXIS : ℕ) : Option ℚ :=
  if AXIS = 0 then some t.dpos_dvalue.1
  else if AXIS = 1 then some t.dpos_dvalue.2
  else none

/-- Modelled from the spec: `GridMark` (this repository's plot module, not
among the provided sources) — "{ value: float, step_size: float } — one
tick's generic-coordinate position and the spacing of its tick tier". -/
structure GridMark where
  value : ℚ
  step_size : ℚ

/-- Modelled from the spec: `epaint::emath::remap_clamp` (this repository,
not among the provided sources) — "linearly remapping ... from `[a, b]` to
`[c, d]` (clamped)". -/
def remap_clamp (x a b c d : ℚ) : ℚ :=
  if x ≤ a then c
  else if b ≤ x then d
  else c + (x - a) / (b - a) * (d - c)

/-! ## The render operation (`AxisWidget::ui`) -/

/-- Per-frame axis render object (`AxisWidget`). -/
structure AxisWidget where
  range : ℚ × ℚ
  hints : AxisHints
  rect : Rect
  transform : Option PlotTransform
  steps : List GridMark

/-- Render environment: the behavior of the external UI collaborators during
one `ui` call — rect visibility, the laid-out title size, and a layout oracle
giving each tick text its galley size. -/
structure RenderEnv where
  visible : Bool
  titleSize : Vec2
  tickSize : String → Vec2

/-- A drawing command emitted by the render operation: the axis title (with
its rotation angle, in turns) or one tick label (with the visual strength
passed to `color_from_strength` and the formatted text). -/
inductive RShape where
  | title (pos : Pos2) (angleTurns : ℚ)
  | tick (pos : Pos2) (strength : ℚ) (text : String)
deriving DecidableEq

/-- The title rotation angle, in turns (source: `0.0` radians for the X axis,
`-TAU * 0.25` radians — i.e. minus a quarter turn — for the Y axis); `none`
models the `unreachable!()` arm. -/
def titleAngleTurns (AXIS : ℕ) : Option ℚ :=
  if AXIS = X_AXIS then some 0
  else if AXIS = Y_AXIS then some (-(1 / 4 : ℚ))
  else none

/-- The title text position (`text_pos` in the source), by placement and
axis; `g` is the laid-out title galley size. `none` models the
`unreachable!()` arms. -/
def titlePos (AXIS : ℕ) (placement : Placement) (rect : Rect) (g : Vec2) :
    Option Pos2 :=
  match placement with
  | Placement.LeftBottom =>
      if AXIS = X_AXIS then
        let pos := rect.center_bottom
        some ⟨pos.x - g.x / 2, pos.y - g.y * (5 / 4)⟩
      else if AXIS = Y_AXIS then
        let pos := rect.left_center
        some ⟨pos.x, pos.y + g.x / 2⟩
      else none
  | Placement.RightTop =>
      if AXIS = X_AXIS then
        let pos := rect.center_top
        some ⟨pos.x - g.x / 2, pos.y + g.y * (1 / 4)⟩
      else if AXIS = Y_AXIS then
        let pos := rect.right_center
        some ⟨pos.x - g.y * (3 / 2), pos.y + g.x / 2⟩
      else none

/-- `const MIN_TEXT_SPACING: f32 = 20.0`. -/
def MIN_TEXT_SPACING : ℚ := 20

/-- `const FULL_CONTRAST_SPACING: f32 = 40.0`. -/
def FULL_CONTRAST_SPACING : ℚ := 40

/-- The tick-label text position (`text_pos` in the tick loop), by axis and
placement; `g` is the tick galley size. `none` models the `unreachable!()`
arm. -/
def tickLabelPos (AXIS : ℕ) (placement : Placement) (rect : Rect)
    (t : PlotTransform) (value : ℚ) (g : Vec2) : Option Pos2 :=
  if AXIS = X_AXIS then
    let y := match placement with
      | Placement.LeftBottom => rect.min.y
      | Placement.RightTop => rect.max.y - g.y
    some ⟨(t.position_from_point (value, 0)).1 - g.x / 2, y⟩
  else if AXIS = Y_AXIS then
    let x := match placement with
      | Placement.LeftBottom => rect.max.x - g.x
      | Placement.RightTop => rect.min.x
    some ⟨x, (t.position_from_point (0, value)).2 - g.y / 2⟩
  else none

/-- One iteration of the tick loop in `AxisWidget::ui`. Outer `none` = panic;
`some none` = the iteration draws nothing (empty text, or spacing at most
`MIN_TEXT_SPACING`); `some (some s)` = the iteration emits tick-label shape
`s`. -/
def tickShape (AXIS : ℕ) (w : AxisWidget) (env : RenderEnv)
    (t : PlotTransform) (step : GridMark) : Option (Option RShape) :=
  let text := w.hints.formatter step.value w.hints.digits w.range
  if text = "" then some none
  else
    match t.dposAt AXIS with
    | none => none
    | some dp =>
        let spacing_in_points := |dp * step.step_size|
        if spacing_in_points ≤ MIN_TEXT_SPACING then some none
        else
          let line_strength :=
            remap_clamp spacing_in_points MIN_TEXT_SPACING FULL_CONTRAST_SPACING 0 1
          let g := env.tickSize text
          match tickLabelPos AXIS w.hints.placement w.rect t step.value g with
          | none => none
          | some pos => some (some (RShape.tick pos line_strength text))

/-- Run a fallible step over a list, collecting the results; `none` if any
step fails (models a loop that panics mid-iteration). -/
def optionMapList {α β : Type} (f : α → Option β) : List α → Option (List β)
  | [] => some []
  | x :: xs =>
      match f x, optionMapList f xs with
      | some y, some ys => some (y :: ys)
      | _, _ => none

/-- `AxisWidget::ui` (the `Widget` impl): the sequence of shapes painted
during one render call. An invisible rect paints nothing; otherwise the title
shape is painted, then — only if a transform is present — one shape per
surviving tick. `none` models a panic (`unreachable!()` / index out of
bounds). -/
def AxisWidget.ui (AXIS : ℕ) (w : AxisWidget) (env : RenderEnv) :
    Option (List RShape) :=
  if env.visible then
    match titleAngleTurns AXIS with
    | none => none
    | some angle =>
        match titlePos AXIS w.hints.placement w.rect env.titleSize with
        | none => none
        | some pos =>
            let title := RShape.title pos angle
            match w.transform with
            | none => some [title]
            | some t =>
                match optionMapList (tickShape AXIS w env t) w.steps with
                | none => none
                | some opts => some (title :: opts.reduceOption)
  else some []

/-! ## Theorems: formatter claims -/

/-- C1: the claim says `format(1e-10, 3, _)` re-emits the *unrounded*
value `1e-10` in signed scientific notation. The code instead formats the
*rounded* value `tick_rounded = round_to_decimals(1e-10, 3) = 0`, producing
`"+0e0"` — not the rendering `"+1e-10" = fmt_plus_e_dec 1 10` of the nonzero
tick value. -/
theorem C1_small_tick_formats_rounded_zero :
    default_formatter (1 / 10 ^ 10) 3 (0, 0) = "+0e0" ∧
      default_formatter (1 / 10 ^ 10) 3 (0, 0) ≠ fmt_plus_e_dec 1 10 := by
  have habs : |(1 / 10 ^ 10 : ℚ)| = 1 / 10 ^ 10 := abs_of_pos (by norm_num)
  have h1 : ¬ (|(1 / 10 ^ 10 : ℚ)| > 10 ^ 3) := by rw [habs]; norm_num
  have h2 : round_to_decimals_num (1 / 10 ^ 10) 3 = 0 := by
    rw [round_to_decimals_num]
    norm_num [round_eq]
  have h3 : |(1 / 10 ^ 10 : ℚ)| < ((10 : ℚ) ^ 3)⁻¹ ∧ (1 / 10 ^ 10 : ℚ) ≠ 0 := by
    rw [habs]
    norm_num
  have hval : default_formatter (1 / 10 ^ 10) 3 (0, 0) = "+0e0" := by
    rw [default_formatter, if_neg h1, if_pos h3, h2]
    decide
  refine ⟨hval, ?_⟩
  rw [hval]
  decide

/-- C8: for every `max_digits` value `d` and range, the default formatter
applied to tick `0` returns exactly `"0"`: the scientific-notation branches are
skipped (the small-magnitude branch explicitly requires `tick ≠ 0`), and the
plain decimal rendering of the rounded value `0` is `"0"`. -/
theorem C8_zero_formats_as_zero (d : ℕ) (r : ℚ × ℚ) :
    default_formatter 0 d r = "0" := by
  have hnum : round_to_decimals_num 0 d = 0 := by
    simp [round_to_decimals_num]
  have hpow : ¬ (|(0 : ℚ)| > 10 ^ d) := by
    simp only [abs_zero, gt_iff_lt, not_lt]
    positivity
  have hcond : ¬ (|(0 : ℚ)| < ((10 : ℚ) ^ d)⁻¹ ∧ (0 : ℚ) ≠ 0) := by simp
  have hstrip : ∀ k : ℕ, stripDec 0 k = (0, 0) := by
    intro k
    induction k with
    | zero => rfl
    | succ n ih => simpa [stripDec] using ih
  rw [default_formatter, if_neg hpow, if_neg hcond, hnum, ratDecToString]
  simp only [hstrip]
  decide

/-- C4: for every finite tick with `|tick| > 10^max_digits` the default
formatter returns the tick truncated to an integer (`tick as isize`) rendered
in Rust signed scientific notation (so the rendered value has no fractional
part); in particular `format(1e10, 3, _) = "+1e10"`, a string with no decimal
point. -/
theorem C4_large_tick_truncated_sci (tick : ℚ) (d : ℕ) (r : ℚ × ℚ)
    (h : |tick| > 10 ^ d) :
    default_formatter tick d r = fmt_plus_e_int (as_isize tick) ∧
      default_formatter (10 ^ 10) 3 r = "+1e10" ∧
      ('.') ∉ ("+1e10").toList := by
  refine ⟨by rw [default_formatter, if_pos h], ?_, by decide⟩
  have h1 : |(10 ^ 10 : ℚ)| > 10 ^ 3 := by
    rw [abs_of_pos (by norm_num)]
    norm_num
  rw [default_formatter, if_pos h1]
  have htr : as_isize (10 ^ 10) = 10 ^ 10 := by
    rw [as_isize, ratTrunc, if_pos (by norm_num)]
    norm_num
  rw [htr]
  decide

/-- C4 witness: instantiation at `tick = 1e10`, `max_digits = 3`. -/
theorem C4_large_tick_truncated_sci_witness :
    default_formatter (10 ^ 10) 3 (0, 0) = fmt_plus_e_int (as_isize (10 ^ 10)) ∧
      default_formatter (10 ^ 10) 3 (0, 0) = "+1e10" ∧
      ('.') ∉ ("+1e10").toList :=
  C4_large_tick_truncated_sci (10 ^ 10) 3 (0, 0)
    (by rw [abs_of_pos (by norm_num)]; norm_num)

/-! ## Concrete fixtures for witnesses and counterexamples -/

/-- A concrete screen rectangle: `[0, 100] × [0, 100]`. -/
def cRect : Rect := ⟨⟨0, 0⟩, ⟨100, 100⟩⟩

/-- Concrete hints with a constant (kernel-evaluable) formatter. -/
def cHints : AxisHints := ⟨"", fun _ _ _ => "0", 5, Placement.LeftBottom⟩

/-- A concrete transform: derivative `(21, 2)`, identity projection. -/
def cTransform : PlotTransform := ⟨(21, 2), id⟩

/-- A transform whose x-derivative yields tick spacing exactly `20`. -/
def cTransform20 : PlotTransform := ⟨(20, 2), id⟩

/-- A transform whose x-derivative yields tick spacing `20.01`. -/
def cTransform2001 : PlotTransform := ⟨(2001 / 100, 2), id⟩

/-- A concrete tick at value `0` with step size `1`. -/
def cStep : GridMark := ⟨0, 1⟩

/-- A concrete render environment: visible, all galleys `10 × 12`. -/
def cEnv : RenderEnv := ⟨true, ⟨10, 12⟩, fun _ => ⟨10, 12⟩⟩

/-- A concrete widget with a transform present. -/
def cWidget : AxisWidget := ⟨(0, 0), cHints, cRect, some cTransform, [cStep]⟩

/-- A concrete widget with no transform. -/
def cWidgetNoT : AxisWidget := ⟨(0, 0), cHints, cRect, none, [cStep]⟩

/-! ## Theorems: thickness and defaults -/

/-- C5: with line-height fixed at 12, `thickness` returns `1 * 12` (empty
label) or `3 * 12` for the X axis and `digits * 12` or `(digits + 1) * 12`
for the Y axis; an empty-label horizontal axis reserves exactly one
line-height and a non-empty-label vertical axis with `digits = 5` reserves
exactly `72`. -/
theorem C5_thickness_rules (h : AxisHints) :
    h.thickness X_AXIS =
        some (if h.label = "" then 1 * LINE_HEIGHT else 3 * LINE_HEIGHT) ∧
      h.thickness Y_AXIS =
        some (if h.label = "" then (h.digits : ℚ) * LINE_HEIGHT
              else ((h.digits : ℚ) + 1) * LINE_HEIGHT) ∧
      (AxisHints.mk "" default_formatter 5 Placement.LeftBottom).thickness
          X_AXIS = some LINE_HEIGHT ∧
      (AxisHints.mk "y" default_formatter 5 Placement.LeftBottom).thickness
          Y_AXIS = some 72 :=
  ⟨rfl, rfl,
    by simp [AxisHints.thickness, X_AXIS, LINE_HEIGHT],
    by simp [AxisHints.thickness, X_AXIS, Y_AXIS, LINE_HEIGHT]; norm_num⟩

/-- C10: the default `AxisHints` has empty label, the default formatter,
`digits = 5`, `LeftBottom` placement; hence a default horizontal axis
reserves `12` units and a default vertical axis reserves `60`. -/
theorem C10_default_config :
    AxisHints.default.label = "" ∧
      AxisHints.default.formatter = default_formatter ∧
      AxisHints.default.digits = 5 ∧
      AxisHints.default.placement = Placement.LeftBottom ∧
      AxisHints.default.thickness X_AXIS = some 12 ∧
      AxisHints.default.thickness Y_AXIS = some 60 :=
  ⟨rfl, rfl, rfl, rfl,
    by simp [AxisHints.thickness, AxisHints.default, X_AXIS, LINE_HEIGHT],
    by simp [AxisHints.thickness, AxisHints.default, X_AXIS, Y_AXIS, LINE_HEIGHT]
       norm_num⟩

/-! ## Theorems: tick visibility and contrast -/

/-- C2: during render with a transform present, a tick's label is drawn iff
the formatter's output is non-empty and the projected spacing
`|dpos_dvalue[AXIS] * step_size|` is strictly greater than `20` (so spacing
exactly `20` is skipped — the threshold comparison is `<=` — while spacing
`20.01` with non-empty text is drawn). -/
theorem C2_tick_drawn_iff (AXIS : ℕ) (hA : AXIS = X_AXIS ∨ AXIS = Y_AXIS)
    (w : AxisWidget) (env : RenderEnv) (t : PlotTransform) (step : GridMark)
    (dp : ℚ) (hdp : t.dposAt AXIS = some dp) :
    ((∃ s, tickShape AXIS w env t step = some (some s)) ↔
      w.hints.formatter step.value w.hints.digits w.range ≠ "" ∧
        |dp * step.step_size| > 20) ∧
      tickShape X_AXIS cWidget cEnv cTransform20 cStep = some none ∧
      (∃ s, tickShape X_AXIS cWidget cEnv cTransform2001 cStep = some (some s)) := by
  refine ⟨?_, ?_, ?_⟩
  case refine_2 =>
    have h20 : |(20 : ℚ) * 1| ≤ 20 := by norm_num
    simp [tickShape, cWidget, cHints, cStep, cTransform20, PlotTransform.dposAt,
      MIN_TEXT_SPACING, X_AXIS, h20]
  case refine_3 =>
    have h2001 : ¬ (|(2001 / 100 : ℚ)| ≤ 20) := by
      rw [abs_of_pos (by norm_num)]
      norm_num
    simp [tickShape, tickLabelPos, cWidget, cHints, cStep, cTransform2001,
      PlotTransform.dposAt, MIN_TEXT_SPACING, X_AXIS, h2001]
  by_cases htext : w.hints.formatter step.value w.hints.digits w.range = ""
  · simp [tickShape, htext]
  · by_cases hsp : |dp * step.step_size| ≤ 20
    · have hred : tickShape AXIS w env t step = some none := by
        simp [tickShape, htext, hdp, MIN_TEXT_SPACING, hsp]
      simp [hred, not_lt.mpr hsp]
    · have hgt := lt_of_not_le hsp
      rcases hA with rfl | rfl
      · have hdp' : t.dposAt 0 = some dp := hdp
        simp [tickShape, tickLabelPos, htext, hdp', MIN_TEXT_SPACING,
          X_AXIS, not_le.mpr hgt, gt_iff_lt, hgt]
      · have hdp' : t.dposAt 1 = some dp := hdp
        simp [tickShape, tickLabelPos, htext, hdp', MIN_TEXT_SPACING,
          X_AXIS, Y_AXIS, not_le.mpr hgt, gt_iff_lt, hgt]

/-- C2 witness: instantiation at the X axis, the concrete widget, a
transform with x-derivative `21`, and the tick at value `0` with step `1`. -/
theorem C2_tick_drawn_iff_witness :
    ((∃ s, tickShape X_AXIS cWidget cEnv cTransform cStep = some (some s)) ↔
      cWidget.hints.formatter cStep.value cWidget.hints.digits cWidget.range
          ≠ "" ∧
        |(21 : ℚ) * cStep.step_size| > 20) ∧
      tickShape X_AXIS cWidget cEnv cTransform20 cStep = some none ∧
      (∃ s, tickShape X_AXIS cWidget cEnv cTransform2001 cStep
        = some (some s)) :=
  C2_tick_drawn_iff X_AXIS (Or.inl rfl) cWidget cEnv cTransform cStep 21 rfl

/-- C3: every drawn tick label carries the visual strength
`remap_clamp spacing [20, 40] [0, 1]`; that remap is exactly `1` for every
spacing at least `40` and equals `(spacing - 20) / 20` strictly between the
bounds (so it approaches `0` as spacing approaches `20` from above). -/
theorem C3_strength_remap (AXIS : ℕ) (w : AxisWidget) (env : RenderEnv)
    (t : PlotTransform) (step : GridMark) (dp : ℚ) (pos : Pos2) (str : ℚ)
    (txt : String) (hdp : t.dposAt AXIS = some dp)
    (hdrawn : tickShape AXIS w env t step
      = some (some (RShape.tick pos str txt))) :
    str = remap_clamp |dp * step.step_size| 20 40 0 1 ∧
      (∀ s : ℚ, 40 ≤ s → remap_clamp s 20 40 0 1 = 1) ∧
      (∀ s : ℚ, 20 < s → s < 40 → remap_clamp s 20 40 0 1 = (s - 20) / 20) := by
  refine ⟨?_, ?_, ?_⟩
  · simp only [tickShape, hdp] at hdrawn
    split_ifs at hdrawn with h1 h2
    · exact absurd hdrawn (by simp)
    · exact absurd hdrawn (by simp)
    · rcases htlp : tickLabelPos AXIS w.hints.placement w.rect t step.value
          (env.tickSize (w.hints.formatter step.value w.hints.digits w.range))
        with _ | p
      · rw [htlp] at hdrawn
        exact absurd hdrawn (by simp)
      · rw [htlp] at hdrawn
        simp only [Option.some.injEq, RShape.tick.injEq] at hdrawn
        obtain ⟨-, hstr, -⟩ := hdrawn
        rw [← hstr]
        simp [MIN_TEXT_SPACING, FULL_CONTRAST_SPACING]
  · intro s hs
    rw [remap_clamp, if_neg (by linarith), if_pos hs]
  · intro s hlo hhi
    rw [remap_clamp, if_neg (by linarith), if_neg (by linarith)]
    ring

/-- C3 witness: instantiation at a concrete drawn tick with spacing `21`,
whose recorded strength is `(21 - 20) / 20 = 1/20`. -/
theorem C3_strength_remap_witness :
    (1 / 20 : ℚ) = remap_clamp |(21 : ℚ) * cStep.step_size| 20 40 0 1 ∧
      (∀ s : ℚ, 40 ≤ s → remap_clamp s 20 40 0 1 = 1) ∧
      (∀ s : ℚ, 20 < s → s < 40 → remap_clamp s 20 40 0 1 = (s - 20) / 20) :=
  C3_strength_remap X_AXIS cWidget cEnv cTransform cStep 21 ⟨-5, 0⟩ (1 / 20)
    "0" rfl (by
      have h21 : ¬ (|(21 : ℚ)| ≤ 20) := by
        rw [abs_of_pos (by norm_num)]
        norm_num
      have hremap : remap_clamp (21 : ℚ) 20 40 0 1 = 1 / 20 := by
        rw [remap_clamp, if_neg (by norm_num), if_neg (by norm_num)]
        norm_num
      simp [tickShape, tickLabelPos, cWidget, cHints, cStep, cTransform, cEnv,
        cRect, PlotTransform.dposAt, MIN_TEXT_SPACING, FULL_CONTRAST_SPACING,
        X_AXIS, h21, hremap]
      norm_num)

/-! ## Theorems: geometry table, no-transform render, unreachable arms -/

/-- C6 counterexample: the claim places the vertical-axis `RightTop` title at
right-center offset only left by `1.5 * h`. For title galley size
`(w, h) = (10, 12)` on the rect `[0,100] × [0,100]` the code also offsets the
y coordinate down by `w / 2 = 5`, so the claimed position is wrong. -/
theorem C6_title_right_top_counterexample :
    titlePos Y_AXIS Placement.RightTop cRect ⟨10, 12⟩ ≠
      some ⟨cRect.right_center.x - (3 / 2) * 12, cRect.right_center.y⟩ := by
  have hval : titlePos Y_AXIS Placement.RightTop cRect ⟨10, 12⟩
      = some ⟨82, 55⟩ := by
    simp [titlePos, Y_AXIS, X_AXIS, cRect, Rect.right_center]
    norm_num
  rw [hval]
  simp [cRect, Rect.right_center]
  norm_num

/-- C6 amended: the full title/tick-label geometry table, with the
vertical/RightTop title additionally offset down by half the title width
(`g.x / 2`), as in the other rotated branch. Sizes `g` are galley sizes
(`g.x` width, `g.y` height); the title angle for the vertical axis is a
quarter turn counterclockwise. -/
theorem C6_geometry_table (rect : Rect) (g : Vec2) (t : PlotTransform)
    (v : ℚ) :
    titlePos X_AXIS Placement.LeftBottom rect g =
        some ⟨rect.center_bottom.x - g.x / 2,
              rect.center_bottom.y - (5 / 4) * g.y⟩ ∧
      titlePos X_AXIS Placement.RightTop rect g =
        some ⟨rect.center_top.x - g.x / 2, rect.center_top.y + (1 / 4) * g.y⟩ ∧
      titlePos Y_AXIS Placement.LeftBottom rect g =
        some ⟨rect.left_center.x, rect.left_center.y + g.x / 2⟩ ∧
      titlePos Y_AXIS Placement.RightTop rect g =
        some ⟨rect.right_center.x - (3 / 2) * g.y,
              rect.right_center.y + g.x / 2⟩ ∧
      titleAngleTurns Y_AXIS = some (-(1 / 4)) ∧
      tickLabelPos X_AXIS Placement.LeftBottom rect t v g =
        some ⟨(t.position_from_point (v, 0)).1 - g.x / 2, rect.min.y⟩ ∧
      tickLabelPos X_AXIS Placement.RightTop rect t v g =
        some ⟨(t.position_from_point (v, 0)).1 - g.x / 2,
              rect.max.y - g.y⟩ ∧
      tickLabelPos Y_AXIS Placement.LeftBottom rect t v g =
        some ⟨rect.max.x - g.x, (t.position_from_point (0, v)).2 - g.y / 2⟩ ∧
      tickLabelPos Y_AXIS Placement.RightTop rect t v g =
        some ⟨rect.min.x, (t.position_from_point (0, v)).2 - g.y / 2⟩ := by
  refine ⟨?_, ?_, ?_, ?_, rfl, ?_, ?_, ?_, ?_⟩ <;>
    simp [titlePos, tickLabelPos, X_AXIS, Y_AXIS, Pos2.mk.injEq] <;>
      ring

/-- C7: with no transform present (and a visible rect), the render operation
emits the title shape and returns: the shape list is exactly one title and
contains zero tick labels, regardless of the tick list. -/
theorem C7_no_transform_title_only (AXIS : ℕ)
    (hA : AXIS = X_AXIS ∨ AXIS = Y_AXIS) (w : AxisWidget) (env : RenderEnv)
    (hvis : env.visible = true) (ht : w.transform = none) :
    ∃ p a, AxisWidget.ui AXIS w env = some [RShape.title p a] := by
  obtain ⟨a, ha⟩ : ∃ a, titleAngleTurns AXIS = some a := by
    rcases hA with rfl | rfl <;> exact ⟨_, rfl⟩
  obtain ⟨p, hp⟩ : ∃ p, titlePos AXIS w.hints.placement w.rect env.titleSize
      = some p := by
    rcases hA with rfl | rfl <;> cases w.hints.placement <;>
      simp [titlePos, X_AXIS, Y_AXIS]
  refine ⟨p, a, ?_⟩
  simp only [AxisWidget.ui, hvis, if_true, ha, hp, ht]

/-- C7 witness: instantiation at the X axis and the concrete widget without
a transform. -/
theorem C7_no_transform_title_only_witness :
    ∃ p a, AxisWidget.ui X_AXIS cWidgetNoT cEnv = some [RShape.title p a] :=
  C7_no_transform_title_only X_AXIS (Or.inl rfl) cWidgetNoT cEnv rfl rfl

/-- Helper: `optionMapList` succeeds when every element does. -/
lemma optionMapList_isSome {α β : Type} (f : α → Option β) (l : List α)
    (hf : ∀ a ∈ l, (f a).isSome) : (optionMapList f l).isSome := by
  induction l with
  | nil => simp [optionMapList]
  | cons x xs ih =>
      obtain ⟨y, hy⟩ := Option.isSome_iff_exists.mp (hf x (by simp))
      obtain ⟨ys, hys⟩ := Option.isSome_iff_exists.mp
        (ih fun a ha => hf a (List.mem_cons_of_mem x ha))
      simp [optionMapList, hy, hys]

/-- Helper: for a recognized axis index the tick-loop body never panics. -/
lemma tickShape_isSome (AXIS : ℕ) (hA : AXIS = X_AXIS ∨ AXIS = Y_AXIS)
    (w : AxisWidget) (env : RenderEnv) (t : PlotTransform) (step : GridMark) :
    (tickShape AXIS w env t step).isSome := by
  rcases hA with rfl | rfl <;>
    · rw [tickShape]
      split_ifs
      · simp
      · simp [tickShape, tickLabelPos, PlotTransform.dposAt, X_AXIS, Y_AXIS]
        split_ifs <;> simp

/-- C9: for `AXIS ∈ {X_AXIS, Y_AXIS}` the `unreachable!()` arms of the
thickness query and of the render operation are never executed: both
functions return a value (`isSome`) on every input. -/
theorem C9_unreachable_arms_never_hit (AXIS : ℕ)
    (hA : AXIS = X_AXIS ∨ AXIS = Y_AXIS) (h : AxisHints) (w : AxisWidget)
    (env : RenderEnv) :
    (h.thickness AXIS).isSome ∧ (AxisWidget.ui AXIS w env).isSome := by
  constructor
  · rcases hA with rfl | rfl <;> simp [AxisHints.thickness, X_AXIS, Y_AXIS]
  · by_cases hvis : env.visible
    · obtain ⟨a, ha⟩ : ∃ a, titleAngleTurns AXIS = some a := by
        rcases hA with rfl | rfl <;> exact ⟨_, rfl⟩
      obtain ⟨p, hp⟩ : ∃ p, titlePos AXIS w.hints.placement w.rect
          env.titleSize = some p := by
        rcases hA with rfl | rfl <;> cases w.hints.placement <;>
          simp [titlePos, X_AXIS, Y_AXIS]
      cases htr : w.transform with
      | none => simp [AxisWidget.ui, hvis, ha, hp, htr]
      | some t =>
          obtain ⟨l, hl⟩ := Option.isSome_iff_exists.mp
            (optionMapList_isSome (tickShape AXIS w env t) w.steps
              fun s _ => tickShape_isSome AXIS hA w env t s)
          simp [AxisWidget.ui, hvis, ha, hp, htr, hl]
    · simp [AxisWidget.ui, hvis]

/-- C9 witness: instantiation at the X axis with the default hints and the
concrete widget. -/
theorem C9_unreachable_arms_never_hit_witness :
    ((AxisHints.default).thickness X_AXIS).isSome ∧
      (AxisWidget.ui X_AXIS cWidget cEnv).isSome :=
  C9_unreachable_arms_never_hit X_AXIS (Or.inl rfl) AxisHints.default cWidget
    cEnv
